import Mathlib

/-!
Shallow embedding of `python/ray/train/lightning/_lightning_utils.py`:
the Lightning dataset adapter (`TorchIterableDataset`, `process_datasets`),
the report bridge (`TrainReportCheckpointLogger`), and the checkpoint
loader (`load_checkpoint`), together with theorems about their behaviour.

Checkpoint payloads are string-keyed dictionaries; they are embedded as
association lists over a small universe of payload values.  Python
exceptions are embedded as `Except` errors.  External collaborators that
are not part of the source file (the reserved key constants from
`ray.air.constants`, `Dataset.iter_torch_batches`, the Lightning
`from_datasets` constructor, and class instantiation) are modelled from
the specification and marked as such in their doc comments.
-/

/-- Modelled from the spec: the reserved model-weights key constant
(`MODEL_KEY` imported from `ray.air.constants`, not part of the source
file).  The spec calls it the fixed model-weights string key. -/
def MODEL_KEY : String := "model"

/-- Modelled from the spec: the fixed preprocessor key constant
(`PREPROCESSOR_KEY` imported from `ray.air.constants`, not part of the
source file). -/
def PREPROCESSOR_KEY : String := "preprocessor"

/-- Derived key for stored constructor parameters, from the source:
`MODEL_PARAMS_KEY = f"{MODEL_KEY}_params"`. -/
def MODEL_PARAMS_KEY : String := MODEL_KEY ++ "_params"

/-- Derived key for an embedded model class reference, from the source:
`MODEL_CLS_KEY = f"{MODEL_KEY}_cls"`. -/
def MODEL_CLS_KEY : String := MODEL_KEY ++ "_cls"

/-- A state dict: a mapping from parameter names to tensor values.  The
tensors themselves are opaque to the adapter, so they are embedded as
integers. -/
abbrev StateDict := List (String × Int)

/-- Constructor parameters captured for the model (a Python kwargs dict);
values are opaque to the adapter and embedded as integers. -/
abbrev Params := List (String × Int)

/-- A metrics mapping, metric name to numeric value.  The values are
passed through unchanged, so rationals stand in for Python floats. -/
abbrev Metrics := List (String × Rat)

/-- A live Lightning module instance.  `objId` models Python object
identity, `clsTag` the class the instance belongs to, `hparams` the
constructor parameters it was built with, `stateDict` its current
weights, and `extra` stands for every other attribute of the object
(used to state frame conditions). -/
structure Model where
  objId : Nat
  clsTag : Nat
  hparams : Params
  stateDict : StateDict
  extra : Nat
deriving DecidableEq, Repr

/-- The `pl_module` argument of `load_checkpoint` is either a class (a
constructor reference, tagged by a natural number) or an
already-instantiated module object. -/
inductive PlModuleRef where
  | cls (c : Nat)
  | inst (m : Model)
deriving DecidableEq, Repr

/-- Embedding of `inspect.isclass` restricted to the values that can
reach the check in the source. -/
def isclass : PlModuleRef → Bool
  | PlModuleRef.cls _ => true
  | PlModuleRef.inst _ => false

/-- Modelled from the spec: instantiating a model class with the saved
constructor parameters (`pl_module(**model_params)` delegates to the
external framework class).  The fresh instance records its class and
parameters; its initial weights and remaining attributes are whatever
the external constructor produces, fixed here to defaults since the
loader immediately overwrites the weights. -/
def instantiate (c : Nat) (p : Params) : Model :=
  { objId := 0, clsTag := c, hparams := p, stateDict := [], extra := 0 }

/-- Embedding of `pl_module.load_state_dict(...)`: replaces the weights
of the instance in place, leaving every other attribute unchanged. -/
def load_state_dict (m : Model) (sd : StateDict) : Model :=
  { m with stateDict := sd }

/-- Embedding of `self._model.state_dict()`: reads the current weights. -/
def Model.state_dict (m : Model) : StateDict := m.stateDict

/-- Values that can appear in a checkpoint payload: a state dict of
weights, a constructor-parameter dict, a model class-or-instance
reference, or a preprocessing pipeline (opaque, tagged by a natural
number). -/
inductive CkptValue where
  | stateDict (sd : StateDict)
  | params (p : Params)
  | modRef (r : PlModuleRef)
  | preproc (n : Nat)
deriving DecidableEq, Repr

/-- A checkpoint payload: a string-keyed dictionary, embedded as an
association list. -/
abbrev CheckpointDict := List (String × CkptValue)

/-- Dictionary lookup, embedding Python `d.get(k, None)` (and `d[k]`
when combined with an explicit `KeyError` on `none`). -/
def dictGet {α : Type} (d : List (String × α)) (k : String) : Option α :=
  match d with
  | [] => none
  | (k1, v) :: rest => if k1 = k then some v else dictGet rest k

/-- Membership test, embedding Python `k in d`. -/
def hasKey {α : Type} (d : List (String × α)) (k : String) : Bool :=
  (dictGet d k).isSome

/-- Removal of every binding of a key, used to state that the loader is
insensitive to the presence of the preprocessor entry. -/
def dictErase {α : Type} (d : List (String × α)) (k : String) :
    List (String × α) :=
  match d with
  | [] => []
  | (k1, v) :: rest =>
      if k1 = k then dictErase rest k else (k1, v) :: dictErase rest k

/-- The synchronous failures `load_checkpoint` can raise: the
missing-required-key `RuntimeError` (naming the key), the
missing-model-reference `ValueError`, a Python `KeyError` from direct
indexing, and a type error from applying module operations to a value
of the wrong shape. -/
inductive LoadError where
  | missingKey (k : String)
  | missingModelRef
  | keyError (k : String)
  | typeError
deriving DecidableEq, Repr

/-- Embedding of the required-keys loop of `load_checkpoint`, preserving
the source exactly: for each `required_key` in the list the code tests
`if MODEL_KEY not in checkpoint_dict` (the fixed weights key, not the
loop variable) and raises the error naming `required_key`. -/
def checkRequiredKeys (checkpoint_dict : CheckpointDict) :
    List String → Except LoadError Unit
  | [] => Except.ok ()
  | required_key :: rest =>
      if hasKey checkpoint_dict MODEL_KEY then
        checkRequiredKeys checkpoint_dict rest
      else Except.error (LoadError.missingKey required_key)

/-- Embedding of `load_checkpoint(checkpoint, pl_module)`.  The payload
dictionary stands for `checkpoint.to_dict()`.  Step by step as in the
source: read the preprocessor entry with a defaulting get; run the
required-keys loop; if `pl_module is None`, take the embedded class
reference from the payload or raise the `ValueError`; if the resolved
reference is a class, look up the stored constructor parameters (a
plain indexing, hence `KeyError` when absent) and instantiate;
finally load the stored weights into the instance and return it with
the preprocessor. -/
def load_checkpoint (checkpoint_dict : CheckpointDict)
    (pl_module : Option PlModuleRef) :
    Except LoadError (Model × Option CkptValue) :=
  let preprocessor := dictGet checkpoint_dict PREPROCESSOR_KEY
  let required_keys : List String := [ MODEL_KEY, MODEL_KEY ++ "_params"]
  match checkRequiredKeys checkpoint_dict required_keys with
  | Except.error e => Except.error e
  | Except.ok _ =>
    let plRefE : Except LoadError PlModuleRef :=
      match pl_module with
      | some r => Except.ok r
      | none =>
          if hasKey checkpoint_dict MODEL_CLS_KEY then
            match dictGet checkpoint_dict MODEL_CLS_KEY with
            | some (CkptValue.modRef r) => Except.ok r
            | _ => Except.error LoadError.typeError
          else Except.error LoadError.missingModelRef
    match plRefE with
    | Except.error e => Except.error e
    | Except.ok plRef =>
      let plInstE : Except LoadError Model :=
        match plRef with
        | PlModuleRef.cls c =>
            match dictGet checkpoint_dict MODEL_PARAMS_KEY with
            | some (CkptValue.params p) => Except.ok (instantiate c p)
            | some _ => Except.error LoadError.typeError
            | none => Except.error (LoadError.keyError MODEL_PARAMS_KEY)
        | PlModuleRef.inst m => Except.ok m
      match plInstE with
      | Except.error e => Except.error e
      | Except.ok plInst =>
        match dictGet checkpoint_dict MODEL_KEY with
        | some (CkptValue.stateDict sd) =>
            Except.ok (load_state_dict plInst sd, preprocessor)
        | some _ => Except.error LoadError.typeError
        | none => Except.error (LoadError.keyError MODEL_KEY)

/-- The report bridge: holds the live model and its constructor
parameters, both captured at construction. -/
structure TrainReportCheckpointLogger where
  _model : Model
  _model_params : Params
deriving DecidableEq, Repr

/-- The `name` property of the logger: a fixed identifier string. -/
def TrainReportCheckpointLogger.name (_ : TrainReportCheckpointLogger) :
    String :=
  "TrainReportCheckpointLogger"

/-- One call to `session.report(metrics, checkpoint=...)`: the metrics
mapping and the checkpoint payload passed along. -/
structure ReportCall where
  metrics : Metrics
  checkpoint : CheckpointDict
deriving DecidableEq, Repr

/-- Embedding of `TrainReportCheckpointLogger.log_metrics`.  The side
effect on the external coordinator is made explicit: the function
returns the list of `session.report` calls it performs together with
its Python return value (`None`, embedded as `Unit`).  As in the
source, it builds one checkpoint payload from the model's current
weights and the stored constructor parameters and reports it once with
the metrics. -/
def TrainReportCheckpointLogger.log_metrics
    (self : TrainReportCheckpointLogger) (metrics : Metrics)
    (step : Option Nat) : List ReportCall × Unit :=
  let checkpoint : CheckpointDict :=
    [(MODEL_KEY, CkptValue.stateDict self._model.state_dict),
     (MODEL_PARAMS_KEY, CkptValue.params self._model_params)]
  ([ReportCall.mk metrics checkpoint], ())

/-- A dataset shard; its content is the sequence of batches its
batch-producing accessor yields (batches are opaque, embedded as
natural numbers). -/
structure Dataset where
  batches : List Nat
deriving DecidableEq, Repr

/-- A Python iterator over batches: mutable position state, embedded as
the list of items not yet consumed. -/
structure BatchIterator where
  remaining : List Nat
deriving DecidableEq, Repr

/-- Modelled from the spec: `Dataset.iter_torch_batches()` (external to
the source file) returns the shard's lazy per-batch iterator — a
one-shot iterator positioned at the first batch. -/
def Dataset.iter_torch_batches (ds : Dataset) : BatchIterator :=
  BatchIterator.mk ds.batches

/-- Embedding of `TorchIterableDataset`: stores the iterator object that
was passed to its constructor. -/
structure TorchIterableDataset where
  iterator : BatchIterator
deriving DecidableEq, Repr

/-- One full iteration of the wrapped dataset, embedding `__iter__`
with its body `yield from self.iterator`: it yields everything still
remaining in the stored iterator and leaves that shared iterator
exhausted.  The result is the yielded batches together with the
wrapper's state afterwards. -/
def TorchIterableDataset.fullIter (t : TorchIterableDataset) :
    List Nat × TorchIterableDataset :=
  (t.iterator.remaining, TorchIterableDataset.mk (BatchIterator.mk []))

/-- The framework's multi-dataset container: named wrapped datasets plus
batch size and worker count. -/
structure LightningDataModule where
  datasets : List (String × TorchIterableDataset)
  batch_size : Option Nat
  num_workers : Nat
deriving DecidableEq, Repr

/-- Modelled from the spec: `LightningDataModule.from_datasets` (external
framework code) bundles the named wrapped datasets with the batch size
and the worker count into one container. -/
def LightningDataModule.from_datasets
    (ds : List (String × TorchIterableDataset)) (batch_size : Option Nat)
    (num_workers : Nat) : LightningDataModule :=
  LightningDataModule.mk ds batch_size num_workers

/-- Embedding of `process_datasets`: wraps the mandatory train shard,
adds each optional shard under its name only when present, and builds
the container with `num_workers = 0`.  Python truthiness of a dataset
object is embedded as presence of the optional value. -/
def process_datasets (train_dataset : Dataset) (val_dataset : Option Dataset)
    (test_dataset : Option Dataset) (predict_dataset : Option Dataset)
    (batch_size : Option Nat) : LightningDataModule :=
  let torch_datasets : List (String × TorchIterableDataset) :=
    [("train_dataset", TorchIterableDataset.mk train_dataset.iter_torch_batches)]
  let torch_datasets :=
    match val_dataset with
    | some v =>
        torch_datasets ++
          [("val_dataset", TorchIterableDataset.mk v.iter_torch_batches)]
    | none => torch_datasets
  let torch_datasets :=
    match test_dataset with
    | some t =>
        torch_datasets ++
          [("test_dataset", TorchIterableDataset.mk t.iter_torch_batches)]
    | none => torch_datasets
  let torch_datasets :=
    match predict_dataset with
    | some p =>
        torch_datasets ++
          [("predict_dataset", TorchIterableDataset.mk p.iter_torch_batches)]
    | none => torch_datasets
  LightningDataModule.from_datasets torch_datasets batch_size 0

/-- Projection of a load result onto the error it raised, if any; keeps
statements about raised exceptions decidable. -/
def loadErr (r : Except LoadError (Model × Option CkptValue)) :
    Option LoadError :=
  match r with
  | Except.error e => some e
  | Except.ok _ => none

/-- Sample weights used in concrete payloads. -/
def sd0 : StateDict := [("w", 1)]

/-- Sample constructor parameters used in concrete payloads. -/
def params0 : Params := [("hidden", 4)]

/-- Sample live module instance. -/
def m0 : Model :=
  { objId := 7, clsTag := 3, hparams := [("hidden", 2)],
    stateDict := [("w", 0)], extra := 5 }

/-- Payload containing the weights key but lacking the parameters key. -/
def payloadNoParams : CheckpointDict := [(MODEL_KEY, CkptValue.stateDict sd0)]

/-- Valid payload with weights, parameters, an embedded class reference
and a preprocessor entry. -/
def payloadFull : CheckpointDict :=
  [(MODEL_KEY, CkptValue.stateDict sd0),
   (MODEL_PARAMS_KEY, CkptValue.params params0),
   (MODEL_CLS_KEY, CkptValue.modRef (PlModuleRef.cls 3)),
   (PREPROCESSOR_KEY, CkptValue.preproc 9)]

/-- Payload with only a preprocessor entry; the weights key is absent. -/
def payloadOnlyPre : CheckpointDict := [(PREPROCESSOR_KEY, CkptValue.preproc 9)]

/-- Sample dataset shard with two batches. -/
def shard0 : Dataset := Dataset.mk [1, 2]

/-- The shard wrapped exactly as `process_datasets` wraps it. -/
def wrapped0 : TorchIterableDataset :=
  TorchIterableDataset.mk shard0.iter_torch_batches

/-- C1: the claim says a payload containing the weights key but lacking
the parameters key is rejected at validation with the missing-key
runtime error; the code does not reject it.  With an already
instantiated module the load succeeds outright, and with a class it
fails later with a `KeyError` from the parameters lookup rather than
the validation error, even though the parameters key is absent. -/
theorem c1_missing_params_key_passes_validation :
    hasKey payloadNoParams MODEL_PARAMS_KEY = false
    ∧ load_checkpoint payloadNoParams (some (PlModuleRef.inst m0)) =
        Except.ok (load_state_dict m0 sd0, none)
    ∧ loadErr (load_checkpoint payloadNoParams (some (PlModuleRef.cls 3))) =
        some (LoadError.keyError MODEL_PARAMS_KEY) := by
  refine ⟨by decide, rfl, rfl⟩

/-- C2: one call to `log_metrics` performs exactly one coordinator
report, passing the given metrics mapping unchanged together with a
checkpoint whose payload holds the model's current weights under the
model-weights key and the captured constructor parameters under the
derived params key, and returns no value. -/
theorem log_metrics_single_report (lg : TrainReportCheckpointLogger)
    (metrics : Metrics) (step : Option Nat) :
    ((lg.log_metrics metrics step).1.length = 1)
    ∧ ((lg.log_metrics metrics step).1.map ReportCall.metrics = [metrics])
    ∧ ((lg.log_metrics metrics step).1.map
        (fun c => dictGet c.checkpoint MODEL_KEY) =
          [some (CkptValue.stateDict lg._model.state_dict)])
    ∧ ((lg.log_metrics metrics step).1.map
        (fun c => dictGet c.checkpoint MODEL_PARAMS_KEY) =
          [some (CkptValue.params lg._model_params)])
    ∧ ((lg.log_metrics metrics step).2 = ()) := by
  refine ⟨rfl, rfl, rfl, ?_, rfl⟩
  simp [TrainReportCheckpointLogger.log_metrics, dictGet,
    MODEL_KEY, MODEL_PARAMS_KEY]

/-- C3 counterexample: the claim quantifies over every payload without
an embedded model-class key, but on the empty payload (which has no
model-class key) `load_checkpoint` with `pl_module = None` raises the
missing-key `RuntimeError`, not the usage `ValueError`. -/
theorem c3_counterexample :
    hasKey ([] : CheckpointDict) MODEL_CLS_KEY = false
    ∧ loadErr (load_checkpoint [] none) = some (LoadError.missingKey MODEL_KEY)
    ∧ LoadError.missingKey MODEL_KEY ≠ LoadError.missingModelRef := by
  refine ⟨rfl, rfl, by decide⟩

/-- C3 (amended): for every payload that passes key validation (the
weights key present) and has no embedded model-class key, calling
`load_checkpoint` with `pl_module = None` fails with the usage
`ValueError` instructing the caller to supply a model reference, and no
model is constructed or mutated (the result carries no model). -/
theorem load_checkpoint_no_cls_requires_module (d : CheckpointDict)
    (h1 : hasKey d MODEL_KEY = true) (h2 : hasKey d MODEL_CLS_KEY = false) :
    load_checkpoint d none = Except.error LoadError.missingModelRef := by
  simp [load_checkpoint, checkRequiredKeys, h1, h2]

/-- C3 witness: the amended theorem applied to the concrete payload that
has the weights key and no class key. -/
theorem load_checkpoint_no_cls_requires_module_witness :
    load_checkpoint payloadNoParams none =
      Except.error LoadError.missingModelRef :=
  load_checkpoint_no_cls_requires_module payloadNoParams (by decide) (by decide)

/-- C7: for every payload lacking the model-weights key,
`load_checkpoint` fails with the missing-key runtime error naming that
key, whatever module argument is passed (so before any model
resolution or weight loading). -/
theorem load_checkpoint_missing_weights_key (d : CheckpointDict)
    (pl : Option PlModuleRef) (h : hasKey d MODEL_KEY = false) :
    load_checkpoint d pl = Except.error (LoadError.missingKey MODEL_KEY) := by
  simp [load_checkpoint, checkRequiredKeys, h]

/-- C7 witness: the theorem applied to a concrete payload holding only a
preprocessor entry, with a class passed as the module argument. -/
theorem load_checkpoint_missing_weights_key_witness :
    load_checkpoint payloadOnlyPre (some (PlModuleRef.cls 0)) =
      Except.error (LoadError.missingKey MODEL_KEY) :=
  load_checkpoint_missing_weights_key payloadOnlyPre
    (some (PlModuleRef.cls 0)) (by decide)

/-- C9 counterexample: the claim says two successive full iterations of
a wrapped dataset each yield the shard's batches from the beginning;
on the concrete shard with batches `[1, 2]` the first full iteration
yields them but the second yields nothing, because the wrapper shares
the single iterator obtained at wrap time. -/
theorem c9_counterexample :
    wrapped0.fullIter.1 = shard0.batches
    ∧ wrapped0.fullIter.2.fullIter.1 ≠ shard0.batches := by
  refine ⟨rfl, by decide⟩

/-- C9 (amended): iterating the wrapped dataset consumes the single
shared iterator captured when the shard was wrapped instead of
re-invoking the shard's batch-producing sequence: the first full
iteration yields all of the shard's batches and every later full
iteration yields nothing. -/
theorem fullIter_consumes_shared_iterator (shard : Dataset) :
    (TorchIterableDataset.mk shard.iter_torch_batches).fullIter.1 =
      shard.batches
    ∧ (TorchIterableDataset.mk
        shard.iter_torch_batches).fullIter.2.fullIter.1 = ([] : List Nat) := by
  exact ⟨rfl, rfl⟩

/-- C10: `log_metrics` ignores its optional step argument; for any two
step values the reported metrics and the checkpoint passed to the
coordinator are identical. -/
theorem log_metrics_ignores_step (lg : TrainReportCheckpointLogger)
    (metrics : Metrics) (s1 s2 : Option Nat) :
    lg.log_metrics metrics s1 = lg.log_metrics metrics s2 := rfl

/-- Lookup of a key in a dictionary from which that key was erased. -/
theorem dictGet_erase_self {α : Type} (d : List (String × α)) (k : String) :
    dictGet (dictErase d k) k = none := by
  induction d with
  | nil => rfl
  | cons hd tl ih =>
      obtain ⟨k1, v⟩ := hd
      by_cases h : k1 = k <;> simp [dictErase, dictGet, h, ih]

/-- Erasing one key leaves lookups of any other key unchanged. -/
theorem dictGet_erase_ne {α : Type} (d : List (String × α)) (k k2 : String)
    (h : k2 ≠ k) : dictGet (dictErase d k) k2 = dictGet d k2 := by
  induction d with
  | nil => rfl
  | cons hd tl ih =>
      obtain ⟨k1, v⟩ := hd
      by_cases h1 : k1 = k
      · subst h1
        simp [dictErase, dictGet, ih, Ne.symm h]
      · by_cases h2 : k1 = k2 <;> simp [dictErase, dictGet, h1, h2, ih, h]

/-- The required-keys loop only inspects the weights key, so erasing the
preprocessor entry does not change its outcome. -/
theorem checkRequiredKeys_erase_pre (d : CheckpointDict) (l : List String) :
    checkRequiredKeys (dictErase d PREPROCESSOR_KEY) l =
      checkRequiredKeys d l := by
  induction l with
  | nil => rfl
  | cons k rest ih =>
      simp [checkRequiredKeys, hasKey,
        dictGet_erase_ne d PREPROCESSOR_KEY MODEL_KEY (by decide), ih]

/-- C4: for every valid payload (weights and parameters entries present)
embedding a model-class reference, `load_checkpoint` with
`pl_module = None` instantiates the embedded class with the stored
constructor parameters and returns an instance of that class whose
loaded weights equal the stored weights. -/
theorem load_checkpoint_instantiates_from_cls (d : CheckpointDict)
    (sd : StateDict) (p : Params) (c : Nat)
    (h1 : dictGet d MODEL_KEY = some (CkptValue.stateDict sd))
    (h2 : dictGet d MODEL_PARAMS_KEY = some (CkptValue.params p))
    (h3 : dictGet d MODEL_CLS_KEY =
      some (CkptValue.modRef (PlModuleRef.cls c))) :
    load_checkpoint d none =
      Except.ok (load_state_dict (instantiate c p) sd,
        dictGet d PREPROCESSOR_KEY)
    ∧ (load_state_dict (instantiate c p) sd).stateDict = sd
    ∧ (load_state_dict (instantiate c p) sd).clsTag = c
    ∧ (load_state_dict (instantiate c p) sd).hparams = p := by
  refine ⟨?_, rfl, rfl, rfl⟩
  simp [load_checkpoint, checkRequiredKeys, hasKey, h1, h2, h3]

/-- C4 witness: the theorem applied to the concrete full payload. -/
theorem load_checkpoint_instantiates_from_cls_witness :
    load_checkpoint payloadFull none =
      Except.ok (load_state_dict (instantiate 3 params0) sd0,
        dictGet payloadFull PREPROCESSOR_KEY)
    ∧ (load_state_dict (instantiate 3 params0) sd0).stateDict = sd0
    ∧ (load_state_dict (instantiate 3 params0) sd0).clsTag = 3
    ∧ (load_state_dict (instantiate 3 params0) sd0).hparams = params0 :=
  load_checkpoint_instantiates_from_cls payloadFull sd0 params0 3
    (by decide) (by decide) (by decide)

/-- C5: for every valid payload and every already-instantiated module
passed explicitly, `load_checkpoint` performs no instantiation: it
returns that same instance with the stored weights loaded into it,
every other attribute (object identity, class, stored hyperparameters,
everything else) unchanged. -/
theorem load_checkpoint_loads_into_given_instance (d : CheckpointDict)
    (sd : StateDict) (m : Model)
    (h1 : dictGet d MODEL_KEY = some (CkptValue.stateDict sd))
    (h2 : hasKey d MODEL_PARAMS_KEY = true) :
    load_checkpoint d (some (PlModuleRef.inst m)) =
      Except.ok (load_state_dict m sd, dictGet d PREPROCESSOR_KEY)
    ∧ (load_state_dict m sd).objId = m.objId
    ∧ (load_state_dict m sd).clsTag = m.clsTag
    ∧ (load_state_dict m sd).hparams = m.hparams
    ∧ (load_state_dict m sd).extra = m.extra
    ∧ (load_state_dict m sd).stateDict = sd := by
  refine ⟨?_, rfl, rfl, rfl, rfl, rfl⟩
  simp [load_checkpoint, checkRequiredKeys, hasKey, h1]

/-- C5 witness: the theorem applied to the concrete full payload and the
concrete module instance. -/
theorem load_checkpoint_loads_into_given_instance_witness :
    load_checkpoint payloadFull (some (PlModuleRef.inst m0)) =
      Except.ok (load_state_dict m0 sd0, dictGet payloadFull PREPROCESSOR_KEY)
    ∧ (load_state_dict m0 sd0).objId = m0.objId
    ∧ (load_state_dict m0 sd0).clsTag = m0.clsTag
    ∧ (load_state_dict m0 sd0).hparams = m0.hparams
    ∧ (load_state_dict m0 sd0).extra = m0.extra
    ∧ (load_state_dict m0 sd0).stateDict = sd0 :=
  load_checkpoint_loads_into_given_instance payloadFull sd0 m0
    (by decide) (by decide)

/-- C6: the container built by `process_datasets` names exactly the
present shards — with only a train shard its name list is
`["train_dataset"]` — every omitted optional shard is entirely absent
(its lookup is `none` exactly when the shard is omitted), and every
present shard appears under its name wrapped as an iterable dataset. -/
theorem process_datasets_named_entries (train : Dataset)
    (val test predict : Option Dataset) (bs : Option Nat) :
    ((process_datasets train val test predict bs).datasets.map Prod.fst =
      "train_dataset" ::
        ((match val with
          | some _ => ["val_dataset"]
          | none => ([] : List String)) ++
         (match test with | some _ => ["test_dataset"] | none => []) ++
         (match predict with | some _ => ["predict_dataset"] | none => [])))
    ∧ dictGet (process_datasets train val test predict bs).datasets
        "train_dataset" =
        some (TorchIterableDataset.mk train.iter_torch_batches)
    ∧ dictGet (process_datasets train val test predict bs).datasets
        "val_dataset" =
        Option.map (fun v => TorchIterableDataset.mk v.iter_torch_batches) val
    ∧ dictGet (process_datasets train val test predict bs).datasets
        "test_dataset" =
        Option.map (fun t => TorchIterableDataset.mk t.iter_torch_batches) test
    ∧ dictGet (process_datasets train val test predict bs).datasets
        "predict_dataset" =
        Option.map
          (fun q => TorchIterableDataset.mk q.iter_torch_batches) predict := by
  rcases val with _ | v <;> rcases test with _ | t <;>
    rcases predict with _ | q <;>
    simp [process_datasets, dictGet, LightningDataModule.from_datasets]

/-- C8: the preprocessor component of a successful load is exactly the
payload's preprocessor entry (so `None` when the key is absent), and
the presence or absence of that entry influences nothing else: loading
a payload equals loading the payload with the preprocessor entry
erased, with only the returned preprocessor differing. -/
theorem load_checkpoint_preprocessor_passthrough (d : CheckpointDict)
    (pl : Option PlModuleRef) :
    load_checkpoint d pl =
      Except.map (fun r => (r.1, dictGet d PREPROCESSOR_KEY))
        (load_checkpoint (dictErase d PREPROCESSOR_KEY) pl) := by
  have hM := dictGet_erase_ne d PREPROCESSOR_KEY MODEL_KEY (by decide)
  have hP := dictGet_erase_ne d PREPROCESSOR_KEY MODEL_PARAMS_KEY (by decide)
  have hC := dictGet_erase_ne d PREPROCESSOR_KEY MODEL_CLS_KEY (by decide)
  have hPre := dictGet_erase_self d PREPROCESSOR_KEY
  rcases hrk : checkRequiredKeys d ([ MODEL_KEY, MODEL_KEY ++ "_params"])
    with e | u
  · simp [load_checkpoint, checkRequiredKeys_erase_pre, hrk, Except.map]
  rcases pl with _ | r
  case ok.some =>
    rcases hmk : dictGet d MODEL_KEY with _ | vM
    all_goals try rcases vM with sd3 | p3 | r3 | n3
    all_goals rcases r with c | m
    all_goals rcases hpk : dictGet d MODEL_PARAMS_KEY with _ | vP
    all_goals try rcases vP with sd2 | p2 | r2 | n2
    all_goals simp [load_checkpoint, checkRequiredKeys_erase_pre, hrk, hmk,
      hpk, hM, hP, hC, hPre, hasKey, Except.map]
  case ok.none =>
    rcases hck : dictGet d MODEL_CLS_KEY with _ | vC
    all_goals try rcases vC with sd1 | p1 | r1 | n1
    all_goals try rcases r1 with c1 | m1
    all_goals rcases hpk : dictGet d MODEL_PARAMS_KEY with _ | vP
    all_goals try rcases vP with sd2 | p2 | r2 | n2
    all_goals rcases hmk : dictGet d MODEL_KEY with _ | vM
    all_goals try rcases vM with sd3 | p3 | r3 | n3
    all_goals simp [load_checkpoint, checkRequiredKeys_erase_pre, hrk, hck,
      hpk, hmk, hM, hP, hC, hPre, hasKey, Except.map]
